import Mathlib

/-!
Shallow embedding of the turso-api-client-ts client library (src/index.ts)
and proofs of the specification claims about it.

The client is a thin typed wrapper over a REST API: every method builds a
relative URL (branching on whether an organization is configured), issues one
HTTP request with a bearer token, and reshapes the JSON response envelope.
We embed the pure content of each method: path construction, header merging,
query-string construction, request-body construction, the status-code check of
the shared request executor, and the response reshaping, with JS `undefined`
modelled by `Option` and JS string truthiness modelled explicitly.
-/

namespace Turso

/-- The configuration record `TursoConfig {token, org?, baseUrl?}`.
Optional fields are `Option`s; `none` models an absent / `undefined` field. -/
structure TursoConfig where
  token : String
  org : Option String := none
  baseUrl : Option String := none
  deriving Repr, DecidableEq

/-- JS truthiness of an optional string: `undefined` and `""` are falsy,
every other string is truthy.  This is the test `this.config.org ? _ : _`. -/
def jsTruthy : Option String → Bool
  | none => false
  | some s => s != ""

/-- JS template-literal stringification of an optional string:
interpolating `undefined` yields the text "undefined". -/
def jsStr : Option String → String
  | none => "undefined"
  | some s => s

/-- The header object built by `TursoClient.request`:
`{...options.headers, Authorization: Bearer <config.token>, "User-Agent": "JS SDK"}`.
In a JS object literal later keys override earlier ones, so we append the two
fixed headers after the caller-supplied ones and read the last occurrence. -/
def requestHeaders (config : TursoConfig) (optionHeaders : List (String × String)) :
    List (String × String) :=
  optionHeaders ++ [("Authorization", "Bearer " ++ config.token), ("User-Agent", "JS SDK")]

/-- The effective value of a header: the last occurrence of the key wins,
matching JS object-literal override semantics. -/
def headerValue (headers : List (String × String)) (key : String) : Option String :=
  (headers.reverse.find? (fun p => p.1 == key)).map Prod.snd

/-- `response.ok` of the fetch API: status in the inclusive range 200–299. -/
def responseOk (status : Nat) : Bool :=
  decide (200 ≤ status) && decide (status ≤ 299)

/-- The response handling of `TursoClient.request`: on a non-ok status it
throws `new Error("Something went wrong! Status " + status)` without touching
the body; on an ok status it parses the body as JSON and returns it.
`parseJson` stands for the (trusted) `response.json()` decoding step. -/
def TursoClient.request {β : Type} (status : Nat) (rawBody : String)
    (parseJson : String → β) : Except String β :=
  if responseOk status then Except.ok (parseJson rawBody)
  else Except.error ("Something went wrong! Status " ++ toString status)

/-- The caller-supplied headers of `ApiTokenClient.validate(token)`:
`{Authorization: Bearer <token>}` with the *argument* token. -/
def ApiTokenClient.validateHeaders (token : String) : List (String × String) :=
  [("Authorization", "Bearer " ++ token)]

/-- The Authorization header actually carried by the request that
`ApiTokenClient.validate(token)` sends, after the executor's header merge. -/
def ApiTokenClient.validateSentAuthorization (config : TursoConfig) (token : String) :
    Option String :=
  headerValue (requestHeaders config (ApiTokenClient.validateHeaders token)) "Authorization"

/-- The value computed by `ApiTokenClient.validate` from the server's `exp`
field and the current Unix time:
`{valid: exp !== -1 && exp > currentTime, expiry: exp}`. -/
def ApiTokenClient.validateResult (exp : Int) (currentTime : Int) : Bool × Int :=
  (decide (exp ≠ -1) && decide (exp > currentTime), exp)

/-- An API token record `{id, name}`. -/
structure ApiToken where
  id : String
  name : String
  deriving Repr, DecidableEq

/-- Organization type: `"personal" | "team"`. -/
inductive OrgType where
  | personal
  | team
  deriving Repr, DecidableEq

/-- An organization record. -/
structure Organization where
  name : String
  slug : String
  type : OrgType
  overages : Bool
  blocked_reads : Bool
  blocked_writes : Bool
  deriving Repr, DecidableEq

/-- Member role: `"owner" | "member"`. -/
inductive MemberRole where
  | owner
  | member
  deriving Repr, DecidableEq

/-- An organization member record. -/
structure OrganizationMember where
  role : MemberRole
  username : String
  email : String
  deriving Repr, DecidableEq

/-- A location `{code, description}` as produced by `LocationClient.list`. -/
structure Location where
  code : String
  description : String
  deriving Repr, DecidableEq

/-- A group record. Location codes are modelled as strings (the TS type is a
string-keyed map with known keys plus an open-ended index signature). -/
structure Group where
  locations : List String
  name : String
  primary : String
  deriving Repr, DecidableEq

/-- `ApiTokenClient.list` result shaping: `response.tokens ?? []`. -/
def ApiTokenClient.listResult (tokens : Option (List ApiToken)) : List ApiToken :=
  tokens.getD []

/-- `OrganizationClient.list` result shaping: `response.organizations ?? []`. -/
def OrganizationClient.listResult (organizations : Option (List Organization)) :
    List Organization :=
  organizations.getD []

/-- `OrganizationClient.members` result shaping: `response.members ?? []`. -/
def OrganizationClient.membersResult (members : Option (List OrganizationMember)) :
    List OrganizationMember :=
  members.getD []

/-- `LocationClient.list` result shaping: `if (!response.locations) return [];`
then `Object.entries(response.locations).map(([code, description]) => ...)`.
The entries of the mapping are modelled as an association list in the
mapping's insertion order. -/
def LocationClient.listResult (locations : Option (List (String × String))) :
    List Location :=
  match locations with
  | none => []
  | some entries => entries.map (fun p => { code := p.1, description := p.2 })

/-- `GroupClient.list` result shaping: `response.groups ?? []`. -/
def GroupClient.listResult (groups : Option (List Group)) : List Group :=
  groups.getD []

/-- The raw database shape returned by the server for list/get:
capitalized `Name`, `DbId`, `Hostname` plus the lowercase remaining fields. -/
structure ApiDatabaseResponse where
  Name : String
  DbId : String
  Hostname : String
  regions : Option (List String) := none
  primaryRegion : Option String := none
  type : String
  version : String
  group : Option String := none
  deriving Repr, DecidableEq

/-- The public database shape with lowercase canonical field names. -/
structure Database where
  name : String
  id : String
  hostname : String
  regions : Option (List String) := none
  primaryRegion : Option String := none
  type : String
  version : String
  group : Option String := none
  deriving Repr, DecidableEq

/-- `DatabaseClient.formatResponse`: normalize `Name`/`DbId`/`Hostname` into
`name`/`id`/`hostname`, passing the other fields through. -/
def DatabaseClient.formatResponse (db : ApiDatabaseResponse) : Database :=
  { name := db.Name
    id := db.DbId
    hostname := db.Hostname
    regions := db.regions
    primaryRegion := db.primaryRegion
    type := db.type
    version := db.version
    group := db.group }

/-- `DatabaseClient.list` result shaping:
`(response.databases ?? []).map((db) => this.formatResponse(db))`. -/
def DatabaseClient.listResult (databases : Option (List ApiDatabaseResponse)) :
    List Database :=
  (databases.getD []).map DatabaseClient.formatResponse

/-- `DatabaseClient.get` result shaping: `this.formatResponse(response.database)`. -/
def DatabaseClient.getResult (database : ApiDatabaseResponse) : Database :=
  DatabaseClient.formatResponse database

/-- Path of `GroupClient.list` (and the POST of `GroupClient.create`):
`config.org ? organizations/(org)/groups : groups`. -/
def GroupClient.listPath (config : TursoConfig) : String :=
  if jsTruthy config.org then "organizations/" ++ jsStr config.org ++ "/groups"
  else "groups"

/-- Path of `GroupClient.get`. -/
def GroupClient.getPath (config : TursoConfig) (name : String) : String :=
  if jsTruthy config.org then "organizations/" ++ jsStr config.org ++ "/groups/" ++ name
  else "groups/" ++ name

/-- Path of `GroupClient.create`. -/
def GroupClient.createPath (config : TursoConfig) : String :=
  if jsTruthy config.org then "organizations/" ++ jsStr config.org ++ "/groups"
  else "groups"

/-- Path of `GroupClient.delete`. -/
def GroupClient.deletePath (config : TursoConfig) (name : String) : String :=
  if jsTruthy config.org then "organizations/" ++ jsStr config.org ++ "/groups/" ++ name
  else "groups/" ++ name

/-- Endpoint of `GroupClient.addLocation`. -/
def GroupClient.addLocationPath (config : TursoConfig) (groupName location : String) :
    String :=
  if jsTruthy config.org then
    "organizations/" ++ jsStr config.org ++ "/groups/" ++ groupName ++ "/locations/" ++ location
  else "groups/" ++ groupName ++ "/locations/" ++ location

/-- Endpoint of `GroupClient.removeLocation`. -/
def GroupClient.removeLocationPath (config : TursoConfig) (groupName location : String) :
    String :=
  if jsTruthy config.org then
    "organizations/" ++ jsStr config.org ++ "/groups/" ++ groupName ++ "/locations/" ++ location
  else "groups/" ++ groupName ++ "/locations/" ++ location

/-- Path of `DatabaseClient.list`. -/
def DatabaseClient.listPath (config : TursoConfig) : String :=
  if jsTruthy config.org then "organizations/" ++ jsStr config.org ++ "/databases"
  else "databases"

/-- Path of `DatabaseClient.get`. -/
def DatabaseClient.getPath (config : TursoConfig) (name : String) : String :=
  if jsTruthy config.org then "organizations/" ++ jsStr config.org ++ "/databases/" ++ name
  else "databases/" ++ name

/-- Path of `DatabaseClient.create`. -/
def DatabaseClient.createPath (config : TursoConfig) (name : String) : String :=
  if jsTruthy config.org then "organizations/" ++ jsStr config.org ++ "/databases/" ++ name
  else "databases/" ++ name

/-- Path of `DatabaseClient.update`: note the legacy branch hits the bare
database path, not an `/update` sub-path (asymmetry reproduced from source). -/
def DatabaseClient.updatePath (config : TursoConfig) (name : String) : String :=
  if jsTruthy config.org then
    "organizations/" ++ jsStr config.org ++ "/databases/" ++ name ++ "/update"
  else "databases/" ++ name

/-- Path of `DatabaseClient.delete`. -/
def DatabaseClient.deletePath (config : TursoConfig) (name : String) : String :=
  if jsTruthy config.org then "organizations/" ++ jsStr config.org ++ "/databases/" ++ name
  else "databases/" ++ name

/-- The `url` variable of `DatabaseClient.createToken`, before the query
string is appended. -/
def DatabaseClient.createTokenBase (config : TursoConfig) (dbName : String) : String :=
  if jsTruthy config.org then
    "organizations/" ++ jsStr config.org ++ "/databases/" ++ dbName ++ "/auth/tokens"
  else "databases/" ++ dbName ++ "/auth/tokens"

/-- Path of `DatabaseClient.rotateTokens`. -/
def DatabaseClient.rotateTokensPath (config : TursoConfig) (dbName : String) : String :=
  if jsTruthy config.org then
    "organizations/" ++ jsStr config.org ++ "/databases/" ++ dbName ++ "/auth/rotate"
  else "databases/" ++ dbName ++ "/auth/rotate"

/-- The `url` variable of `DatabaseClient.usage`, before the query string. -/
def DatabaseClient.usageBase (config : TursoConfig) (dbName : String) : String :=
  if jsTruthy config.org then
    "organizations/" ++ jsStr config.org ++ "/databases/" ++ dbName ++ "/usage"
  else "databases/" ++ dbName ++ "/usage"

/-- Options of `DatabaseClient.createToken`; both fields are strings in the
runtime model (`authorization` is the union "read-only" | "full-access"). -/
structure CreateTokenOptions where
  expiration : String
  authorization : String
  deriving Repr, DecidableEq

/-- The `URLSearchParams` built by `DatabaseClient.createToken`:
`expiration` is set first when truthy, then `authorization` when truthy. -/
def DatabaseClient.createTokenQuery (options : Option CreateTokenOptions) :
    List (String × String) :=
  (match options with
   | some o => if o.expiration != "" then [("expiration", o.expiration)] else []
   | none => []) ++
  (match options with
   | some o => if o.authorization != "" then [("authorization", o.authorization)] else []
   | none => [])

/-- `URLSearchParams.toString()`: ampersand-separated `key=value` pairs
(percent-encoding is not modelled; no key or value used here needs it). -/
def renderQuery (params : List (String × String)) : String :=
  String.intercalate "&" (params.map (fun p => p.1 ++ "=" ++ p.2))

/-- The full URL string of `DatabaseClient.createToken`: `url + "?" + queryParams`,
with the `?` present even when the query is empty. -/
def DatabaseClient.createTokenUrl (config : TursoConfig) (dbName : String)
    (options : Option CreateTokenOptions) : String :=
  DatabaseClient.createTokenBase config dbName ++ "?" ++
    renderQuery (DatabaseClient.createTokenQuery options)

/-- A `Date | string` argument of `DatabaseClient.usage`: a `Date` value
carries the ISO string its `toISOString()` produces. -/
inductive DateParam where
  | date (isoString : String)
  | str (s : String)
  deriving Repr, DecidableEq

/-- `DatabaseClient.formatDateParameter`: a `Date` is converted with
`toISOString()`, a string passes through unchanged. -/
def DatabaseClient.formatDateParameter : DateParam → String
  | DateParam.date isoString => isoString
  | DateParam.str s => s

/-- JS truthiness of a `Date | string` value: any `Date` object is truthy,
a string is truthy iff non-empty. -/
def jsTruthyDate : DateParam → Bool
  | DateParam.date _ => true
  | DateParam.str s => s != ""

/-- Options of `DatabaseClient.usage`: optional `from` and `to` bounds. -/
structure UsageOptions where
  «from» : Option DateParam := none
  «to» : Option DateParam := none
  deriving Repr, DecidableEq

/-- The `URLSearchParams` built by `DatabaseClient.usage`: `from` is set when
`options?.from` is truthy, then `to` when `options?.to` is truthy. -/
def DatabaseClient.usageQuery (options : Option UsageOptions) : List (String × String) :=
  (match options.bind (fun o => o.«from») with
   | some f =>
     if jsTruthyDate f then [("from", DatabaseClient.formatDateParameter f)] else []
   | none => []) ++
  (match options.bind (fun o => o.«to») with
   | some t =>
     if jsTruthyDate t then [("to", DatabaseClient.formatDateParameter t)] else []
   | none => [])

/-- The full URL string of `DatabaseClient.usage`: `url + "?" + queryParams`. -/
def DatabaseClient.usageUrl (config : TursoConfig) (dbName : String)
    (options : Option UsageOptions) : String :=
  DatabaseClient.usageBase config dbName ++ "?" ++
    renderQuery (DatabaseClient.usageQuery options)

/-- Per-instance usage numbers. -/
structure DatabaseInstanceUsageDetail where
  rows_read : Nat
  rows_written : Nat
  storage_bytes : Nat
  deriving Repr, DecidableEq

/-- Usage of one database instance. -/
structure DatabaseInstanceUsage where
  uuid : String
  usage : DatabaseInstanceUsageDetail
  deriving Repr, DecidableEq

/-- The `database` part of the usage response envelope. -/
structure DatabaseUsage where
  uuid : String
  instances : List DatabaseInstanceUsage
  usage : DatabaseInstanceUsageDetail
  deriving Repr, DecidableEq

/-- The `total` part of the usage response envelope. -/
structure TotalUsage where
  rows_read : Nat
  rows_written : Nat
  storage_bytes : Nat
  deriving Repr, DecidableEq

/-- The three-part response envelope of the usage endpoint
`{database, instances, total}`; `instances` is a uuid-keyed map, modelled as
an association list. -/
structure UsageEnvelope where
  database : DatabaseUsage
  instances : List (String × DatabaseInstanceUsageDetail)
  total : TotalUsage
  deriving Repr, DecidableEq

/-- `DatabaseClient.usage` result shaping: `return response.database`. -/
def DatabaseClient.usageResult (response : UsageEnvelope) : DatabaseUsage :=
  response.database

/-- Options of `DatabaseClient.create`: `image` required within the options
object, `group` optional. -/
structure CreateDatabaseOptions where
  image : String
  group : Option String := none
  deriving Repr, DecidableEq

/-- The JSON request body of `DatabaseClient.create`:
`JSON.stringify({name, ...options})` as an ordered list of key/value pairs;
spreading `undefined` options contributes nothing, and an absent `group`
key does not appear. -/
def DatabaseClient.createBody (name : String) (options : Option CreateDatabaseOptions) :
    List (String × String) :=
  [("name", name)] ++
  (match options with
   | none => []
   | some o =>
     [("image", o.image)] ++
     (match o.group with
      | none => []
      | some g => [("group", g)]))

/-- The config stored by the `TursoClient` constructor:
`{baseUrl: "https://api.turso.tech/v1", ...config}` — the default is
overridden by a supplied `baseUrl`, and `token`/`org` are copied through. -/
def TursoClient.mkConfig (config : TursoConfig) : TursoConfig :=
  { token := config.token
    org := config.org
    baseUrl := some (config.baseUrl.getD "https://api.turso.tech/v1") }

/-- Claim C1: the claim says `validate(token)` sends the *given* token as the
bearer credential.  The code does not: `TursoClient.request` spreads
`options.headers` first and then overrides `Authorization` with the client's
configured token, so for every config and every argument token the request
carries `Bearer <config.token>`. -/
theorem C1_validate_sends_config_token (config : TursoConfig) (token : String) :
    ApiTokenClient.validateSentAuthorization config token =
      some ("Bearer " ++ config.token) := by
  rfl

/-- Claim C2: the executor fails on every status outside 200–299 with an error
carrying exactly that status, independent of the response body and of the JSON
parser (the body is neither parsed nor included), and raises no error on a
status inside 200–299. -/
theorem C2_request_status (β : Type) (status : Nat) (raw raw' : String)
    (p p' : String → β) :
    (¬(200 ≤ status ∧ status ≤ 299) →
      TursoClient.request status raw p =
        Except.error ("Something went wrong! Status " ++ toString status) ∧
      TursoClient.request status raw p = TursoClient.request status raw' p') ∧
    ((200 ≤ status ∧ status ≤ 299) →
      TursoClient.request status raw p = Except.ok (p raw)) := by
  constructor
  · intro h
    have hok : responseOk status = false := by
      simp [responseOk]
      omega
    constructor <;> simp [TursoClient.request, hok]
  · intro h
    have hok : responseOk status = true := by
      simp [responseOk]
      omega
    simp [TursoClient.request, hok]

/-- Witness for C2 at concrete inputs: status 404 fails with the message
carrying 404, status 200 returns the parsed body. -/
theorem C2_request_status_witness :
    TursoClient.request 404 "body" id =
      Except.error ("Something went wrong! Status " ++ toString 404) ∧
    TursoClient.request 200 "body" id = Except.ok "body" :=
  ⟨((C2_request_status String 404 "body" "other" id id).1 (by decide)).1,
   (C2_request_status String 200 "body" "other" id id).2 (by decide)⟩

/-- Claim C3: `validate` returns `expiry = exp` always, and `valid = true`
exactly when `exp ≠ -1` and `exp > currentTime`; in particular `valid = false`
whenever `exp = -1` and whenever `exp ≤ currentTime`. -/
theorem C3_validate_result (exp t : Int) :
    (ApiTokenClient.validateResult exp t).2 = exp ∧
    ((ApiTokenClient.validateResult exp t).1 = true ↔ exp ≠ -1 ∧ exp > t) ∧
    (exp = -1 → (ApiTokenClient.validateResult exp t).1 = false) ∧
    (exp ≤ t → (ApiTokenClient.validateResult exp t).1 = false) := by
  refine ⟨rfl, ?_, ?_, ?_⟩ <;>
    simp [ApiTokenClient.validateResult] <;>
    omega

/-- Witness for C3 at concrete inputs. -/
theorem C3_validate_result_witness :
    (ApiTokenClient.validateResult (-1) 0).1 = false ∧
    (ApiTokenClient.validateResult 5 10).1 = false ∧
    (ApiTokenClient.validateResult 10 5).1 = true ∧
    (ApiTokenClient.validateResult 10 5).2 = 10 :=
  ⟨(C3_validate_result (-1) 0).2.2.1 rfl,
   (C3_validate_result 5 10).2.2.2 (by decide),
   ((C3_validate_result 10 5).2.1).mpr (by decide),
   (C3_validate_result 10 5).1⟩

/-- Claim C4: list/get return databases keyed by the lowercase canonical names
taken from the server's capitalized fields, with the remaining fields passed
through; and the end-to-end example evaluates exactly as claimed. -/
theorem C4_format_response (db : ApiDatabaseResponse) (dbs : List ApiDatabaseResponse) :
    DatabaseClient.getResult db =
      { name := db.Name, id := db.DbId, hostname := db.Hostname,
        regions := db.regions, primaryRegion := db.primaryRegion,
        type := db.type, version := db.version, group := db.group } ∧
    DatabaseClient.listResult (some dbs) = dbs.map DatabaseClient.formatResponse ∧
    DatabaseClient.getResult
        { Name := "mydb", DbId := "123", Hostname := "h.turso.io",
          type := "sqld", version := "1" } =
      { name := "mydb", id := "123", hostname := "h.turso.io",
        type := "sqld", version := "1",
        regions := none, primaryRegion := none, group := none } :=
  ⟨rfl, rfl, rfl⟩

/-- Claim C5: every list-style method returns an empty list when the server's
response omits the expected envelope field. -/
theorem C5_missing_list_fields :
    ApiTokenClient.listResult none = [] ∧
    OrganizationClient.listResult none = [] ∧
    OrganizationClient.membersResult none = [] ∧
    LocationClient.listResult none = [] ∧
    GroupClient.listResult none = [] ∧
    DatabaseClient.listResult none = [] :=
  ⟨rfl, rfl, rfl, rfl, rfl, rfl⟩

/-- Counterexample to C6 as stated: with `config.org` set to the empty string
the field is set, yet `groups.list()` targets the legacy path `groups`,
because the code branches on JS truthiness and `""` is falsy. -/
theorem C6_counterexample :
    ({ token := "t", org := some "" } : TursoConfig).org ≠ none ∧
    GroupClient.listPath { token := "t", org := some "" } = "groups" :=
  ⟨by decide, rfl⟩

/-- Claim C6 (amended): for every GroupClient and DatabaseClient method the
path is org-scoped exactly when `config.org` is set to a non-empty string;
otherwise (unset or empty) the legacy non-org-scoped path is used. -/
theorem C6_org_scoped_paths (config : TursoConfig) (o name loc : String) :
    (config.org = some o → o ≠ "" →
      GroupClient.listPath config = "organizations/" ++ o ++ "/groups" ∧
      GroupClient.getPath config name = "organizations/" ++ o ++ "/groups/" ++ name ∧
      GroupClient.createPath config = "organizations/" ++ o ++ "/groups" ∧
      GroupClient.deletePath config name = "organizations/" ++ o ++ "/groups/" ++ name ∧
      GroupClient.addLocationPath config name loc =
        "organizations/" ++ o ++ "/groups/" ++ name ++ "/locations/" ++ loc ∧
      GroupClient.removeLocationPath config name loc =
        "organizations/" ++ o ++ "/groups/" ++ name ++ "/locations/" ++ loc ∧
      DatabaseClient.listPath config = "organizations/" ++ o ++ "/databases" ∧
      DatabaseClient.getPath config name = "organizations/" ++ o ++ "/databases/" ++ name ∧
      DatabaseClient.createPath config name =
        "organizations/" ++ o ++ "/databases/" ++ name ∧
      DatabaseClient.updatePath config name =
        "organizations/" ++ o ++ "/databases/" ++ name ++ "/update" ∧
      DatabaseClient.deletePath config name =
        "organizations/" ++ o ++ "/databases/" ++ name ∧
      DatabaseClient.createTokenBase config name =
        "organizations/" ++ o ++ "/databases/" ++ name ++ "/auth/tokens" ∧
      DatabaseClient.rotateTokensPath config name =
        "organizations/" ++ o ++ "/databases/" ++ name ++ "/auth/rotate" ∧
      DatabaseClient.usageBase config name =
        "organizations/" ++ o ++ "/databases/" ++ name ++ "/usage") ∧
    ((config.org = none ∨ config.org = some "") →
      GroupClient.listPath config = "groups" ∧
      GroupClient.getPath config name = "groups/" ++ name ∧
      GroupClient.createPath config = "groups" ∧
      GroupClient.deletePath config name = "groups/" ++ name ∧
      GroupClient.addLocationPath config name loc =
        "groups/" ++ name ++ "/locations/" ++ loc ∧
      GroupClient.removeLocationPath config name loc =
        "groups/" ++ name ++ "/locations/" ++ loc ∧
      DatabaseClient.listPath config = "databases" ∧
      DatabaseClient.getPath config name = "databases/" ++ name ∧
      DatabaseClient.createPath config name = "databases/" ++ name ∧
      DatabaseClient.updatePath config name = "databases/" ++ name ∧
      DatabaseClient.deletePath config name = "databases/" ++ name ∧
      DatabaseClient.createTokenBase config name = "databases/" ++ name ++ "/auth/tokens" ∧
      DatabaseClient.rotateTokensPath config name = "databases/" ++ name ++ "/auth/rotate" ∧
      DatabaseClient.usageBase config name = "databases/" ++ name ++ "/usage") := by
  constructor
  · intro ho hne
    simp [GroupClient.listPath, GroupClient.getPath, GroupClient.createPath,
      GroupClient.deletePath, GroupClient.addLocationPath,
      GroupClient.removeLocationPath, DatabaseClient.listPath,
      DatabaseClient.getPath, DatabaseClient.createPath, DatabaseClient.updatePath,
      DatabaseClient.deletePath, DatabaseClient.createTokenBase,
      DatabaseClient.rotateTokensPath, DatabaseClient.usageBase,
      jsTruthy, jsStr, ho, hne]
  · intro ho
    rcases ho with ho | ho <;>
      simp [GroupClient.listPath, GroupClient.getPath, GroupClient.createPath,
        GroupClient.deletePath, GroupClient.addLocationPath,
        GroupClient.removeLocationPath, DatabaseClient.listPath,
        DatabaseClient.getPath, DatabaseClient.createPath, DatabaseClient.updatePath,
        DatabaseClient.deletePath, DatabaseClient.createTokenBase,
        DatabaseClient.rotateTokensPath, DatabaseClient.usageBase,
        jsTruthy, jsStr, ho]

/-- Witness for the amended C6 at concrete inputs: org "acme" gives the
org-scoped path, no org gives the legacy path. -/
theorem C6_org_scoped_paths_witness :
    GroupClient.listPath { token := "t", org := some "acme" } = "organizations/acme/groups" ∧
    GroupClient.listPath { token := "t" } = "groups" :=
  ⟨((C6_org_scoped_paths { token := "t", org := some "acme" } "acme" "n" "l").1
      rfl (by decide)).1,
   ((C6_org_scoped_paths { token := "t" } "acme" "n" "l").2 (Or.inl rfl)).1⟩

/-- Claim C7: `usage` returns exactly the `database` part of the
`{database, instances, total}` envelope; the result does not depend on the
`instances` and `total` parts. -/
theorem C7_usage_envelope (d : DatabaseUsage)
    (i i' : List (String × DatabaseInstanceUsageDetail)) (t t' : TotalUsage) :
    DatabaseClient.usageResult { database := d, instances := i, total := t } = d ∧
    DatabaseClient.usageResult { database := d, instances := i, total := t } =
      DatabaseClient.usageResult { database := d, instances := i', total := t' } :=
  ⟨rfl, rfl⟩

/-- Claim C8: the constructor defaults `baseUrl` to the public API root when
absent, keeps a supplied `baseUrl`, and preserves `token` and `org`. -/
theorem C8_config_defaults (config : TursoConfig) (u : String) :
    (config.baseUrl = none →
      (TursoClient.mkConfig config).baseUrl = some "https://api.turso.tech/v1") ∧
    (config.baseUrl = some u → (TursoClient.mkConfig config).baseUrl = some u) ∧
    (TursoClient.mkConfig config).token = config.token ∧
    (TursoClient.mkConfig config).org = config.org := by
  refine ⟨?_, ?_, rfl, rfl⟩ <;> intro h <;> simp [TursoClient.mkConfig, h]

/-- Witness for C8 at concrete inputs. -/
theorem C8_config_defaults_witness :
    (TursoClient.mkConfig { token := "t" }).baseUrl = some "https://api.turso.tech/v1" ∧
    (TursoClient.mkConfig { token := "t", baseUrl := some "http://localhost:8080" }).baseUrl =
      some "http://localhost:8080" :=
  ⟨(C8_config_defaults { token := "t" } "x").1 rfl,
   (C8_config_defaults { token := "t", baseUrl := some "http://localhost:8080" }
      "http://localhost:8080").2.1 rfl⟩

/-- Claim C9: `createToken` and `usage` URLs always contain the `?` separator
(with an empty query when no options are given), and each query parameter
appears exactly when the corresponding option is provided and truthy. -/
theorem C9_query_params (config : TursoConfig) (dbName : String)
    (copts : Option CreateTokenOptions) (uopts : Option UsageOptions) :
    (DatabaseClient.createTokenUrl config dbName copts =
      DatabaseClient.createTokenBase config dbName ++ "?" ++
        renderQuery (DatabaseClient.createTokenQuery copts)) ∧
    (copts = none →
      DatabaseClient.createTokenUrl config dbName copts =
        DatabaseClient.createTokenBase config dbName ++ "?") ∧
    ("expiration" ∈ (DatabaseClient.createTokenQuery copts).map Prod.fst ↔
      ∃ o, copts = some o ∧ o.expiration ≠ "") ∧
    ("authorization" ∈ (DatabaseClient.createTokenQuery copts).map Prod.fst ↔
      ∃ o, copts = some o ∧ o.authorization ≠ "") ∧
    (DatabaseClient.usageUrl config dbName uopts =
      DatabaseClient.usageBase config dbName ++ "?" ++
        renderQuery (DatabaseClient.usageQuery uopts)) ∧
    (uopts = none →
      DatabaseClient.usageUrl config dbName uopts =
        DatabaseClient.usageBase config dbName ++ "?") ∧
    ("from" ∈ (DatabaseClient.usageQuery uopts).map Prod.fst ↔
      ∃ o f, uopts = some o ∧ o.«from» = some f ∧ jsTruthyDate f = true) ∧
    ("to" ∈ (DatabaseClient.usageQuery uopts).map Prod.fst ↔
      ∃ o t, uopts = some o ∧ o.«to» = some t ∧ jsTruthyDate t = true) := by
  have hq : ∀ s : String, s ++ "" = s := by
    intro s
    cases s with
    | mk l => show String.mk (l ++ []) = String.mk l; rw [List.append_nil]
  have hea : ("expiration" : String) ≠ "authorization" := by decide
  have hft : ("from" : String) ≠ "to" := by decide
  refine ⟨rfl, ?_, ?_, ?_, rfl, ?_, ?_, ?_⟩
  · intro h
    subst h
    exact hq _
  · rcases copts with _ | o
    · simp [DatabaseClient.createTokenQuery]
    · by_cases he : o.expiration = "" <;>
        by_cases ha : o.authorization = "" <;>
        simp [DatabaseClient.createTokenQuery, he, ha, hea]
  · rcases copts with _ | o
    · simp [DatabaseClient.createTokenQuery]
    · by_cases he : o.expiration = "" <;>
        by_cases ha : o.authorization = "" <;>
        simp [DatabaseClient.createTokenQuery, he, ha, hea.symm]
  · intro h
    subst h
    exact hq _
  · rcases uopts with _ | ⟨f, t⟩
    · simp [DatabaseClient.usageQuery]
    · rcases f with _ | fp
      · rcases t with _ | tp
        · simp [DatabaseClient.usageQuery]
        · by_cases h : jsTruthyDate tp = true <;>
            simp [DatabaseClient.usageQuery, h, hft]
      · rcases t with _ | tp
        · by_cases h : jsTruthyDate fp = true <;>
            simp [DatabaseClient.usageQuery, h]
        · by_cases h : jsTruthyDate fp = true <;>
            by_cases h2 : jsTruthyDate tp = true <;>
            simp [DatabaseClient.usageQuery, h, h2, hft]
  · rcases uopts with _ | ⟨f, t⟩
    · simp [DatabaseClient.usageQuery]
    · rcases f with _ | fp
      · rcases t with _ | tp
        · simp [DatabaseClient.usageQuery]
        · by_cases h : jsTruthyDate tp = true <;>
            simp [DatabaseClient.usageQuery, h]
      · rcases t with _ | tp
        · by_cases h : jsTruthyDate fp = true <;>
            simp [DatabaseClient.usageQuery, h, hft.symm]
        · by_cases h : jsTruthyDate fp = true <;>
            by_cases h2 : jsTruthyDate tp = true <;>
            simp [DatabaseClient.usageQuery, h, h2, hft.symm]

/-- Witness for C9 at concrete inputs: with no options both URLs end in a
bare `?`. -/
theorem C9_query_params_witness :
    DatabaseClient.createTokenUrl ({ token := "t" } : TursoConfig) "db" none =
      "databases/db/auth/tokens?" ∧
    DatabaseClient.usageUrl ({ token := "t" } : TursoConfig) "db" none =
      "databases/db/usage?" :=
  ⟨((C9_query_params { token := "t" } "db" none none).2.1 rfl).trans (by decide),
   ((C9_query_params { token := "t" } "db" none none).2.2.2.2.2.1 rfl).trans (by decide)⟩

/-- Claim C10: with options omitted the create body is exactly
`{"name": name}` with no image or group keys; with options provided the body
is name plus exactly the keys present in the options. -/
theorem C10_create_body (name : String) (o : CreateDatabaseOptions) (g : String) :
    DatabaseClient.createBody name none = [("name", name)] ∧
    "image" ∉ (DatabaseClient.createBody name none).map Prod.fst ∧
    "group" ∉ (DatabaseClient.createBody name none).map Prod.fst ∧
    (o.group = none →
      DatabaseClient.createBody name (some o) = [("name", name), ("image", o.image)]) ∧
    (o.group = some g →
      DatabaseClient.createBody name (some o) =
        [("name", name), ("image", o.image), ("group", g)]) := by
  refine ⟨rfl, ?_, ?_, ?_, ?_⟩
  · simp [DatabaseClient.createBody]
  · simp [DatabaseClient.createBody]
  · intro h
    simp [DatabaseClient.createBody, h]
  · intro h
    simp [DatabaseClient.createBody, h]

/-- Witness for C10 at concrete inputs. -/
theorem C10_create_body_witness :
    DatabaseClient.createBody "db" (some { image := "latest" }) =
      [("name", "db"), ("image", "latest")] ∧
    DatabaseClient.createBody "db" (some { image := "latest", group := some "grp" }) =
      [("name", "db"), ("image", "latest"), ("group", "grp")] :=
  ⟨(C10_create_body "db" { image := "latest" } "x").2.2.2.1 rfl,
   (C10_create_body "db" { image := "latest", group := some "grp" } "grp").2.2.2.2 rfl⟩

end Turso
